import Mathlib

/-!
ChatHubGo — verification of the real-time delivery subsystem.

Shallow embedding of the parts of the ChatHubGo repository that the
specification's claims are about:

* the client-side reconciliation logic of the `roomMessage` branch of the
  WebSocket `onmessage` handler (React client, `Chat.js`);
* the server-side WebSocket message loop `Client.readPump`, the per-room
  fan-out `RoomHub.Run` (broadcast case), and the registry disconnect
  handling in `RoomManager.Run` (Go server, `main.go`).

Pure functions model each code path; side effects of the server loops are
recorded as explicit effect traces, and the Go `close` of an already
closed channel (a runtime panic) is modelled with `Except`.
-/

namespace ChatHubGo

/-! ## Client data model

A client-side message id is either a canonical integer id assigned by the
server or a temporary string id (`"temp-" + Date.now()`) generated for an
optimistic message.  JavaScript strict equality `===` between a number and
a string is always false, which the sum type reproduces. -/

inductive MsgId where
  | canonical (n : Int)
  | temp (s : String)
deriving DecidableEq, Repr

/-- A message entry in the client view, with the fields the `onmessage`
`roomMessage` branch constructs and inspects (`id`, `senderId`, `sender`,
`text`, `timestamp`, `avatar`, `read`, `isOptimistic`).  The room id is
not stored on the entry; the cache is keyed by room id. -/
structure CMsg where
  id : MsgId
  senderId : Int
  sender : String
  text : String
  timestamp : String
  avatar : String
  read : Bool
  isOptimistic : Bool
deriving DecidableEq, Repr

/-- The predicate of the reconciliation filter: `m.isOptimistic &&
m.text === newMessage.text && m.senderId === currentUser.id`. -/
def optMatch (currentUserId : Int) (newMessage m : CMsg) : Bool :=
  m.isOptimistic && m.text == newMessage.text && m.senderId == currentUserId

/-- The duplicate-id predicate: `m.id === newMessage.id`. -/
def sameId (newMessage m : CMsg) : Bool :=
  m.id == newMessage.id

/-- The reconciliation step of the `roomMessage` branch of
`ws.current.onmessage`: given the current cached list for the envelope's
room and the freshly built `newMessage`, compute the updated list.

For an own message (`senderId === currentUser.id`) the code first filters
out every optimistic entry with equal text from the local user, then
appends `newMessage` unless an entry with its id already exists; for a
foreign message it appends unless the id already exists. -/
def reconcileRoomMessages (currentUserId : Int) (cur : List CMsg)
    (newMessage : CMsg) : List CMsg :=
  if newMessage.senderId == currentUserId then
    let filtered := cur.filter fun m => !(optMatch currentUserId newMessage m)
    if filtered.any (sameId newMessage) then filtered
    else filtered ++ [newMessage]
  else
    if cur.any (sameId newMessage) then cur
    else cur ++ [newMessage]

/-- An entry of the client rooms list (the fields the handler reads or
rewrites; `name` stands for the fields carried over unchanged by the
object spread). -/
structure RoomEntry where
  id : Int
  name : String
  lastMessage : String
  lastMessageTime : String
  lastSenderId : Int
  unread : Int
deriving DecidableEq, Repr

/-- Client component state touched by the `roomMessage` branch:
the per-room message cache (`messagesCache.current`, modelled as a total
map with the `|| []` default folded in), the active view (`messages`),
the rooms list and the active room id. -/
structure ClientState where
  messagesCache : Int → List CMsg
  messages : List CMsg
  rooms : List RoomEntry
  activeRoomId : Option Int

/-- The per-entry rewrite inside the `setRooms` updater: the entry whose
id equals the envelope's room gets the new last message, `"Just now"` as
last-message time, the sender id, and an incremented unread counter when
the room is not active and the message is foreign; every other entry is
returned as is. -/
def updateRoomEntry (newMessage : CMsg) (shouldIncrementUnread : Bool)
    (roomId : Int) (r : RoomEntry) : RoomEntry :=
  if r.id == roomId then
    { r with
      lastMessage := newMessage.text
      lastMessageTime := "Just now"
      lastSenderId := newMessage.senderId
      unread := if shouldIncrementUnread then r.unread + 1 else r.unread }
  else r

/-- The `setRooms` updater of the `roomMessage` branch: rewrite the
matching entry and float it to the top of the list (the other entries
keep their relative order). -/
def updateRooms (currentUserId : Int) (activeRoomId : Option Int)
    (roomId : Int) (newMessage : CMsg) (rooms : List RoomEntry) : List RoomEntry :=
  let isCurrentlyActiveRoom := activeRoomId == some roomId
  let isOwnMessage := newMessage.senderId == currentUserId
  let updatedRooms := rooms.map
    (updateRoomEntry newMessage (!isCurrentlyActiveRoom && !isOwnMessage) roomId)
  match updatedRooms.find? (fun r => r.id == roomId) with
  | some roomWithMessage => roomWithMessage :: updatedRooms.filter (fun r => r.id != roomId)
  | none => updatedRooms

/-- The whole `roomMessage` branch of `ws.current.onmessage`: reconcile
the envelope into the room's cached list, refresh the active view when
the envelope's room is active, rewrite the room's entry in the rooms list
(last message, unread counter) and float that room to the top. -/
def handleRoomMessage (currentUserId : Int) (st : ClientState)
    (roomId : Int) (newMessage : CMsg) : ClientState :=
  let currentRoomMessages := st.messagesCache roomId
  let updatedRoomMessages := reconcileRoomMessages currentUserId currentRoomMessages newMessage
  let isCurrentlyActiveRoom := st.activeRoomId == some roomId
  { messagesCache := fun r => if r == roomId then updatedRoomMessages else st.messagesCache r
    messages := if isCurrentlyActiveRoom then updatedRoomMessages else st.messages
    rooms := updateRooms currentUserId st.activeRoomId roomId newMessage st.rooms
    activeRoomId := st.activeRoomId }

/-! Concrete fixtures used by witnesses and counterexamples. -/

/-- A pending optimistic `"hello"` from user 1 (older). -/
def optHello1 : CMsg :=
  { id := MsgId.temp "temp-100", senderId := 1, sender := "alice",
    text := "hello", timestamp := "10:00:00", avatar := "a",
    read := false, isOptimistic := true }

/-- A second pending optimistic `"hello"` from user 1 (newer). -/
def optHello2 : CMsg :=
  { id := MsgId.temp "temp-200", senderId := 1, sender := "alice",
    text := "hello", timestamp := "10:00:01", avatar := "a",
    read := false, isOptimistic := true }

/-- The canonical envelope for `"hello"` from user 1, canonical id 5. -/
def canHello : CMsg :=
  { id := MsgId.canonical 5, senderId := 1, sender := "alice",
    text := "hello", timestamp := "10:00 AM", avatar := "a",
    read := true, isOptimistic := false }

/-- An unrelated message from another user. -/
def otherMsg : CMsg :=
  { id := MsgId.canonical 3, senderId := 2, sender := "bob",
    text := "hi there", timestamp := "9:59 AM", avatar := "b",
    read := true, isOptimistic := false }

/-! ## Server data model

The Go server (`main.go`).  `Client.readPump` reads one `WSMessage` at a
time and dispatches on its `type` tag; its externally visible actions are
modelled as an effect trace. -/

/-- The identity fields of a connected `Client` (set once at handshake). -/
structure ClientInfo where
  id : Int
  username : String
  avatar : String
deriving DecidableEq, Repr

/-- The server `Message` struct as filled in on the publish path: the
`INSERT ... RETURNING` row plus the `Sender`/`Avatar`/`Read` fields set
afterwards. -/
structure SavedMsg where
  id : Int
  roomId : Int
  senderId : Int
  sender : String
  avatar : String
  text : String
  timestamp : String
  read : Bool
deriving DecidableEq, Repr

/-- An outbound `WSMessage` (the envelope union restricted to the cases
the modelled paths emit). -/
inductive OutMsg where
  | error (content : String)
  | roomMessage (roomId : Int) (msg : SavedMsg)
deriving DecidableEq, Repr

/-- The inbound `WSMessage` fields the read loop inspects. -/
structure InMsg where
  type : String
  roomId : Int
  content : String
deriving DecidableEq, Repr

/-- Outcome of the durable `INSERT INTO messages ... RETURNING` write:
either the canonical id and timestamp, or a database error. -/
inductive PersistResult where
  | ok (id : Int) (timestamp : String)
  | failure
deriving DecidableEq, Repr

/-- Externally visible actions of one `readPump` iteration, in program
order: a send on the client's own channel, a registration request to a
room hub, the durable write (with its outcome), a broadcast submitted to
a room hub. -/
inductive Effect where
  | sendToClient (m : OutMsg)
  | registerToHub (roomId : Int)
  | persist (roomId senderId : Int) (content : String) (result : PersistResult)
  | broadcast (roomId : Int) (m : OutMsg)
deriving DecidableEq, Repr

/-- Result of processing one parsed inbound message: the ordered effect
trace, and whether the read loop keeps the connection open (it breaks
only on a read error, never inside the dispatch). -/
structure StepResult where
  effects : List Effect
  connOpen : Bool
deriving DecidableEq, Repr

/-- One iteration of `Client.readPump` on a successfully parsed message.
`isMember` is the `isUserInRoom` membership check; `persistOutcome` is
what the database returns if the publish path reaches the `INSERT`.

* `joinRoom`: non-members get an error envelope and no registration;
  members are registered with the (possibly freshly created) room hub.
* `sendMessage`: empty content or zero room id is dropped with no
  effects; non-members get an error envelope; otherwise the message is
  written first and, only on a successful write, broadcast with the
  canonical id and timestamp.
* any other type falls through the switch with no effects. -/
def readPumpStep (c : ClientInfo) (isMember : Int → Int → Bool)
    (persistOutcome : PersistResult) (msg : InMsg) : StepResult :=
  if msg.type == "joinRoom" then
    if !(isMember c.id msg.roomId) then
      ⟨[Effect.sendToClient (OutMsg.error "Not authorized for this room")], true⟩
    else
      ⟨[Effect.registerToHub msg.roomId], true⟩
  else if msg.type == "sendMessage" then
    if msg.content == "" || msg.roomId == 0 then
      ⟨[], true⟩
    else if !(isMember c.id msg.roomId) then
      ⟨[Effect.sendToClient (OutMsg.error "Not authorized to send to this room")], true⟩
    else
      match persistOutcome with
      | PersistResult.failure =>
        ⟨[Effect.persist msg.roomId c.id msg.content PersistResult.failure], true⟩
      | PersistResult.ok pid ts =>
        let savedMsg : SavedMsg :=
          { id := pid, roomId := msg.roomId, senderId := c.id,
            sender := c.username, avatar := c.avatar,
            text := msg.content, timestamp := ts, read := false }
        ⟨[Effect.persist msg.roomId c.id msg.content (PersistResult.ok pid ts),
          Effect.broadcast msg.roomId (OutMsg.roomMessage msg.roomId savedMsg)], true⟩
  else
    ⟨[], true⟩

/-! ## Room hub fan-out -/

/-- A subscribed session as the broadcast case sees it: its client id and
the current contents of its bounded `Send` mailbox. -/
structure Session where
  cid : Int
  mailbox : List OutMsg
deriving DecidableEq, Repr

/-- Capacity of a client's `Send` channel (`make(chan *WSMessage, 256)`). -/
def sendChanCap : Nat := 256

/-- The broadcast case of `RoomHub.Run`: for each subscriber, a
non-blocking send on its mailbox (`select` with a `default` branch) —
the envelope is enqueued when the mailbox has room, otherwise the
subscriber's id is handed to the manager's unregister channel
(asynchronous eviction) and its mailbox is left as is.  Returns the
updated subscriber list and the list of eviction requests. -/
def fanOut (cap : Nat) (clients : List Session) (env : OutMsg) :
    List Session × List Int :=
  (clients.map fun c =>
      if c.mailbox.length < cap then { c with mailbox := c.mailbox ++ [env] } else c,
    (clients.filter fun c => !(c.mailbox.length < cap)).map Session.cid)

/-! ## Registry disconnect handling -/

/-- A room hub's identity and subscriber set (client ids). -/
structure Hub where
  roomId : Int
  clients : List Int
deriving DecidableEq, Repr

/-- The `Unregister` case of `RoomManager.Run`: iterate over every hub;
where the client is present, delete it from that hub's subscriber map and
`close` its `Send` channel.  `closed` tracks whether the channel has
already been closed; in Go a second `close` panics, modelled as
`Except.error`.  On success, returns the updated hubs and whether the
channel ended up closed. -/
def unregLoop (cid : Int) (closed : Bool) :
    List Hub → Except String (List Hub × Bool)
  | [] => Except.ok ([], closed)
  | h :: rest =>
    if h.clients.contains cid then
      let h' : Hub := { h with clients := h.clients.filter fun x => x != cid }
      if closed then
        Except.error "close of closed channel"
      else
        match unregLoop cid true rest with
        | Except.ok (rest', closedEnd) => Except.ok (h' :: rest', closedEnd)
        | Except.error e => Except.error e
    else
      match unregLoop cid closed rest with
      | Except.ok (rest', closedEnd) => Except.ok (h :: rest', closedEnd)
      | Except.error e => Except.error e

/-- The `Register` case of `RoomHub.Run`: `h.Clients[client] = true`
(idempotent set insert). -/
def hubRegister (h : Hub) (cid : Int) : Hub :=
  if h.clients.contains cid then h else { h with clients := h.clients ++ [cid] }

/-- The `Unregister` case of `RoomHub.Run`: delete if present. -/
def hubUnregister (h : Hub) (cid : Int) : Hub :=
  { h with clients := h.clients.filter fun x => x != cid }

/-! ## Further fixtures for witnesses -/

/-- A client component state with two cached rooms, room 3 active. -/
def st0 : ClientState :=
  { messagesCache := fun r => if r == 7 then [optHello1] else if r == 3 then [otherMsg] else []
    messages := [otherMsg]
    rooms := [⟨7, "seven", "old", "9:00 AM", 2, 0⟩, ⟨3, "three", "hi there", "9:59 AM", 2, 1⟩]
    activeRoomId := some 3 }

/-- The connected client used by server-side witnesses. -/
def carol : ClientInfo := ⟨2, "carol", "C"⟩

/-- A membership table where nobody is a member of anything. -/
def noMembership : Int → Int → Bool := fun _ _ => false

/-- A membership table where everybody is a member of everything. -/
def allMembership : Int → Int → Bool := fun _ _ => true

/-! ## Helper lemmas -/

/-- Filtering twice with the same predicate is the same as filtering once. -/
theorem filter_self_eq {α : Type} (p : α → Bool) (l : List α) :
    (l.filter p).filter p = l.filter p := by
  induction l with
  | nil => rfl
  | cons a t ih =>
    by_cases h : p a = true
    · simp [List.filter_cons, h, ih]
    · simp [List.filter_cons, Bool.eq_false_iff.mpr h, ih]

/-! ## Claim C1 -/

/-- C1 counterexample: the claim says reconciliation finds the *oldest*
pending optimistic message with equal body and replaces *that single
entry*, so with two pending optimistic `"hello"` entries and one
canonical `"hello"` envelope the newer optimistic entry must survive
(two entries total).  The code instead filters out *every* matching
optimistic entry: the result is the canonical envelope alone, and the
second optimistic entry is gone. -/
theorem claim_C1_counterexample :
    reconcileRoomMessages 1 [optHello1, optHello2] canHello = [canHello] ∧
      optHello2 ∉ reconcileRoomMessages 1 [optHello1, optHello2] canHello := by
  decide

/-- C1 (amended): for a canonical envelope from the local user whose id
is not yet present, the reconciliation step removes *every* optimistic
message with exactly equal body text from the local user (not only the
oldest) and appends the canonical envelope at the end of the list; in
particular, when no optimistic message matches, the envelope is appended
as a new entry and the rest of the list is untouched. -/
theorem claim_C1 (uid : Int) (cur : List CMsg) (n : CMsg)
    (hown : n.senderId = uid)
    (hfresh : ∀ m ∈ cur, m.id ≠ n.id) :
    reconcileRoomMessages uid cur n =
      (cur.filter fun m => !(optMatch uid n m)) ++ [n] := by
  have h1 : (n.senderId == uid) = true := by simp [hown]
  have h2 : ((cur.filter fun m => !(optMatch uid n m)).any (sameId n)) = false := by
    rw [List.any_eq_false]
    intro m hm
    simp [sameId, hfresh m (List.mem_of_mem_filter hm)]
  simp [reconcileRoomMessages, h1, h2]

/-- C1 witness: one pending optimistic `"hello"` next to an unrelated
message; the canonical envelope replaces the optimistic copy and the
unrelated message survives. -/
theorem claim_C1_witness :
    reconcileRoomMessages 1 [optHello1, otherMsg] canHello =
      ([optHello1, otherMsg].filter fun m => !(optMatch 1 canHello m)) ++ [canHello] :=
  claim_C1 1 [optHello1, otherMsg] canHello rfl (by decide)

/-! ## Claim C5 -/

/-- C5 counterexample: the claim says any list already containing the
envelope's canonical id is left unchanged by the reconciliation step.
Here the list contains the canonical entry (id 5) *and* a lingering
optimistic `"hello"`; re-applying the same envelope removes the
optimistic entry, so the list is not left unchanged. -/
theorem claim_C5_counterexample :
    reconcileRoomMessages 1 [canHello, optHello1] canHello ≠ [canHello, optHello1] := by
  decide

/-- C5 (amended): applying the same canonical envelope to a room's
message list twice yields the same list as applying it once — the
reconciliation step is idempotent, so replayed duplicate envelopes never
produce duplicate entries.  (A list already containing the canonical id
is not always left literally unchanged: a lingering optimistic copy with
equal body is still removed, as the counterexample shows.) -/
theorem claim_C5 (uid : Int) (cur : List CMsg) (n : CMsg) :
    reconcileRoomMessages uid (reconcileRoomMessages uid cur n) n =
      reconcileRoomMessages uid cur n := by
  have hself : sameId n n = true := by simp [sameId]
  cases hown : (n.senderId == uid) with
  | true =>
    cases hA : ((cur.filter fun m => !(optMatch uid n m)).any (sameId n)) with
    | true =>
      have h1 : reconcileRoomMessages uid cur n =
          cur.filter fun m => !(optMatch uid n m) := by
        simp [reconcileRoomMessages, hown, hA]
      rw [h1]
      simp [reconcileRoomMessages, hown, filter_self_eq, hA]
    | false =>
      have h1 : reconcileRoomMessages uid cur n =
          (cur.filter fun m => !(optMatch uid n m)) ++ [n] := by
        simp [reconcileRoomMessages, hown, hA]
      rw [h1]
      cases hpn : (!(optMatch uid n n)) with
      | true =>
        have hfilter :
            (((cur.filter fun m => !(optMatch uid n m)) ++ [n]).filter
              fun m => !(optMatch uid n m)) =
              (cur.filter fun m => !(optMatch uid n m)) ++ [n] := by
          rw [List.filter_append, filter_self_eq]
          simp [hpn]
        have hany :
            ((((cur.filter fun m => !(optMatch uid n m)) ++ [n]).filter
              fun m => !(optMatch uid n m)).any (sameId n)) = true := by
          rw [hfilter, List.any_append]
          simp [hself]
        simp [reconcileRoomMessages, hown, hany, hfilter, hself]
      | false =>
        have hfilter :
            (((cur.filter fun m => !(optMatch uid n m)) ++ [n]).filter
              fun m => !(optMatch uid n m)) =
              cur.filter fun m => !(optMatch uid n m) := by
          rw [List.filter_append, filter_self_eq]
          simp [hpn]
        simp [reconcileRoomMessages, hown, hfilter, hA]
  | false =>
    cases hA : (cur.any (sameId n)) with
    | true =>
      have h1 : reconcileRoomMessages uid cur n = cur := by
        simp [reconcileRoomMessages, hown, hA]
      rw [h1]
      simp [reconcileRoomMessages, hown, hA]
    | false =>
      have h1 : reconcileRoomMessages uid cur n = cur ++ [n] := by
        simp [reconcileRoomMessages, hown, hA]
      rw [h1]
      have hany : ((cur ++ [n]).any (sameId n)) = true := by
        rw [List.any_append]
        simp [hself]
      simp [reconcileRoomMessages, hown, hany]

/-- Exhaustive case analysis of the effect trace of one `readPump`
iteration: the trace is empty, a single error envelope (join or send), a
single hub registration, a failed write with nothing after it, or a
successful write followed by the broadcast built from its canonical id
and timestamp. -/
theorem readPumpStep_cases (c : ClientInfo) (isMember : Int → Int → Bool)
    (pr : PersistResult) (msg : InMsg) :
    (readPumpStep c isMember pr msg).effects = [] ∨
    (readPumpStep c isMember pr msg).effects =
      [Effect.sendToClient (OutMsg.error "Not authorized for this room")] ∨
    (readPumpStep c isMember pr msg).effects = [Effect.registerToHub msg.roomId] ∨
    (readPumpStep c isMember pr msg).effects =
      [Effect.sendToClient (OutMsg.error "Not authorized to send to this room")] ∨
    ((readPumpStep c isMember pr msg).effects =
      [Effect.persist msg.roomId c.id msg.content PersistResult.failure] ∧
      pr = PersistResult.failure) ∨
    (∃ pid ts, pr = PersistResult.ok pid ts ∧
      (readPumpStep c isMember pr msg).effects =
        [Effect.persist msg.roomId c.id msg.content (PersistResult.ok pid ts),
         Effect.broadcast msg.roomId (OutMsg.roomMessage msg.roomId
           ⟨pid, msg.roomId, c.id, c.username, c.avatar, msg.content, ts, false⟩)]) := by
  unfold readPumpStep
  split
  · split
    · exact Or.inr (Or.inl rfl)
    · exact Or.inr (Or.inr (Or.inl rfl))
  · split
    · split
      · exact Or.inl rfl
      · split
        · exact Or.inr (Or.inr (Or.inr (Or.inl rfl)))
        · split
          · exact Or.inr (Or.inr (Or.inr (Or.inr (Or.inl ⟨rfl, rfl⟩))))
          · rename_i pid ts
            exact Or.inr (Or.inr (Or.inr (Or.inr (Or.inr ⟨pid, ts, rfl, rfl⟩))))
    · exact Or.inl rfl

/-! ## Claim C2 -/

/-- C2: when `isMember(U, R)` is false, both `joinRoom` and
`sendMessage` (well-formed: non-empty content, non-zero room id) produce
exactly one effect — an error envelope back to the offending client —
and keep the connection open: no registration with the room hub, no
persistence write, no broadcast.  Moreover, a client that is in no
subscriber list of a hub receives nothing from that hub's fan-out. -/
theorem claim_C2 (c : ClientInfo) (isMember : Int → Int → Bool)
    (pr : PersistResult) (R : Int) (content : String)
    (hmem : isMember c.id R = false) (hcontent : content ≠ "") (hroom : R ≠ 0) :
    readPumpStep c isMember pr ⟨"joinRoom", R, content⟩ =
      ⟨[Effect.sendToClient (OutMsg.error "Not authorized for this room")], true⟩ ∧
    readPumpStep c isMember pr ⟨"sendMessage", R, content⟩ =
      ⟨[Effect.sendToClient (OutMsg.error "Not authorized to send to this room")], true⟩ ∧
    ∀ (cap : Nat) (clients : List Session) (env : OutMsg),
      (∀ s ∈ clients, s.cid ≠ c.id) →
      ∀ s ∈ (fanOut cap clients env).fst, s.cid ≠ c.id := by
  have hc : (content == "") = false := by simp [hcontent]
  have hr : ((R : Int) == 0) = false := by simp [hroom]
  refine ⟨?_, ?_, ?_⟩
  · simp [readPumpStep, hmem]
  · simp [readPumpStep, hmem, hc, hr]
  · intro cap clients env hnone s hs
    simp only [fanOut, List.mem_map] at hs
    obtain ⟨a, ha, hfa⟩ := hs
    subst hfa
    by_cases hlt : a.mailbox.length < cap <;> simp [hlt] <;> exact hnone a ha

/-- C2 witness: user 2 is a member of nothing and targets room 7. -/
theorem claim_C2_witness :
    readPumpStep carol noMembership PersistResult.failure ⟨"joinRoom", 7, "hi"⟩ =
      ⟨[Effect.sendToClient (OutMsg.error "Not authorized for this room")], true⟩ :=
  (claim_C2 carol noMembership PersistResult.failure 7 "hi" rfl (by decide) (by decide)).1

/-! ## Claim C3 -/

/-- C3: write-before-broadcast.  If the durable write fails, the trace
of the publish path contains no broadcast at all; and whenever the trace
contains a broadcast, the write succeeded and the trace is exactly the
successful write followed by the broadcast whose envelope carries the
canonical id and timestamp the write returned. -/
theorem claim_C3 (c : ClientInfo) (isMember : Int → Int → Bool)
    (pr : PersistResult) (msg : InMsg) :
    (pr = PersistResult.failure →
      ∀ r env, Effect.broadcast r env ∉ (readPumpStep c isMember pr msg).effects) ∧
    (∀ r env, Effect.broadcast r env ∈ (readPumpStep c isMember pr msg).effects →
      ∃ pid ts, pr = PersistResult.ok pid ts ∧
        (readPumpStep c isMember pr msg).effects =
          [Effect.persist msg.roomId c.id msg.content (PersistResult.ok pid ts),
           Effect.broadcast msg.roomId (OutMsg.roomMessage msg.roomId
             ⟨pid, msg.roomId, c.id, c.username, c.avatar, msg.content, ts, false⟩)]) := by
  rcases readPumpStep_cases c isMember pr msg with h | h | h | h | ⟨h, hpr⟩ | ⟨pid, ts, hpr, h⟩
  · exact ⟨fun _ r env hmem => by rw [h] at hmem; simp at hmem,
      fun r env hmem => by rw [h] at hmem; simp at hmem⟩
  · exact ⟨fun _ r env hmem => by rw [h] at hmem; simp at hmem,
      fun r env hmem => by rw [h] at hmem; simp at hmem⟩
  · exact ⟨fun _ r env hmem => by rw [h] at hmem; simp at hmem,
      fun r env hmem => by rw [h] at hmem; simp at hmem⟩
  · exact ⟨fun _ r env hmem => by rw [h] at hmem; simp at hmem,
      fun r env hmem => by rw [h] at hmem; simp at hmem⟩
  · exact ⟨fun _ r env hmem => by rw [h] at hmem; simp at hmem,
      fun r env hmem => by rw [h] at hmem; simp at hmem⟩
  · refine ⟨fun hfail => ?_, fun r env _ => ⟨pid, ts, hpr, h⟩⟩
    rw [hpr] at hfail
    exact PersistResult.noConfusion hfail

/-- C3 witness: a failed write on a well-formed publish broadcasts
nothing. -/
theorem claim_C3_witness :
    Effect.broadcast 7 (OutMsg.error "boom") ∉
      (readPumpStep carol allMembership PersistResult.failure
        ⟨"sendMessage", 7, "hi"⟩).effects :=
  (claim_C3 carol allMembership PersistResult.failure ⟨"sendMessage", 7, "hi"⟩).1
    rfl 7 (OutMsg.error "boom")

/-! ## Claim C4 -/

/-- C4 counterexample: the claim says the sender of a publish with empty
body or zero room id receives a validation-error response.  The code
logs and `continue`s: the effect trace is empty, so no response of any
kind — in particular no error envelope — reaches the sender. -/
theorem claim_C4_counterexample :
    (readPumpStep carol allMembership (PersistResult.ok 9 "2024-01-01T00:00:00Z")
      ⟨"sendMessage", 7, ""⟩).effects = [] ∧
    (readPumpStep carol allMembership (PersistResult.ok 9 "2024-01-01T00:00:00Z")
      ⟨"sendMessage", 0, "hi"⟩).effects = [] := by
  decide

/-- C4 (amended): a publish with empty body or zero room id is dropped
locally with no effect whatsoever — no persistence write, no fan-out,
and also no response envelope to the sender — and the connection stays
open. -/
theorem claim_C4 (c : ClientInfo) (isMember : Int → Int → Bool)
    (pr : PersistResult) (R : Int) (content : String)
    (hbad : content = "" ∨ R = 0) :
    readPumpStep c isMember pr ⟨"sendMessage", R, content⟩ = ⟨[], true⟩ := by
  rcases hbad with h | h <;> subst h <;> simp [readPumpStep]

/-- C4 witness: an empty body aimed at room 7 is dropped silently. -/
theorem claim_C4_witness :
    readPumpStep carol noMembership PersistResult.failure ⟨"sendMessage", 7, ""⟩ =
      ⟨[], true⟩ :=
  claim_C4 carol noMembership PersistResult.failure 7 "" (Or.inl rfl)

/-! ## Claim C9 -/

/-- C9: on an accepted publish (non-empty content, member, successful
write) the broadcast envelope carries exactly the submitted body as its
text, the publishing client's id as sender id, its username as sender
and the request's room id — the body is not altered between receipt and
fan-out. -/
theorem claim_C9 (c : ClientInfo) (isMember : Int → Int → Bool)
    (R pid : Int) (content ts : String)
    (hmem : isMember c.id R = true) (hcontent : content ≠ "") (hroom : R ≠ 0) :
    readPumpStep c isMember (PersistResult.ok pid ts) ⟨"sendMessage", R, content⟩ =
      ⟨[Effect.persist R c.id content (PersistResult.ok pid ts),
        Effect.broadcast R (OutMsg.roomMessage R
          ⟨pid, R, c.id, c.username, c.avatar, content, ts, false⟩)], true⟩ := by
  have hc : (content == "") = false := by simp [hcontent]
  have hr : ((R : Int) == 0) = false := by simp [hroom]
  simp [readPumpStep, hmem, hc, hr]

/-- C9 witness: user 2 publishes `"hi"` to room 7 with canonical id 9. -/
theorem claim_C9_witness :
    readPumpStep carol allMembership (PersistResult.ok 9 "2024-01-01T00:00:00Z")
        ⟨"sendMessage", 7, "hi"⟩ =
      ⟨[Effect.persist 7 carol.id "hi" (PersistResult.ok 9 "2024-01-01T00:00:00Z"),
        Effect.broadcast 7 (OutMsg.roomMessage 7
          ⟨9, 7, carol.id, carol.username, carol.avatar, "hi",
            "2024-01-01T00:00:00Z", false⟩)], true⟩ :=
  claim_C9 carol allMembership 7 9 "hi" "2024-01-01T00:00:00Z" rfl (by decide) (by decide)

/-- When the registry's disconnect handling completes without fault, the
resulting hubs are exactly the input hubs with the disconnected client
filtered out of every subscriber set. -/
theorem unregLoop_ok_fst (cid : Int) (closed : Bool) (hubs : List Hub)
    (res : List Hub × Bool) (h : unregLoop cid closed hubs = Except.ok res) :
    res.fst = hubs.map fun hb =>
      { hb with clients := hb.clients.filter fun x => x != cid } := by
  induction hubs generalizing closed res with
  | nil =>
    simp only [unregLoop, Except.ok.injEq] at h
    rw [← h]
    rfl
  | cons hb rest ih =>
    rw [unregLoop] at h
    by_cases hcon : hb.clients.contains cid
    · rw [if_pos hcon] at h
      cases closed with
      | true => exact absurd h (by simp)
      | false =>
        simp only [Bool.false_eq_true, if_false] at h
        cases hrec : unregLoop cid true rest with
        | error e => rw [hrec] at h; exact absurd h (by simp)
        | ok pair =>
          rw [hrec] at h
          simp only [Except.ok.injEq] at h
          rw [← h]
          simp [ih true pair hrec]
    · rw [if_neg hcon] at h
      cases hrec : unregLoop cid closed rest with
      | error e => rw [hrec] at h; exact absurd h (by simp)
      | ok pair =>
        rw [hrec] at h
        simp only [Except.ok.injEq] at h
        rw [← h]
        have hid : hb.clients.filter (fun x => x != cid) = hb.clients := by
          apply List.filter_eq_self.mpr
          intro a ha
          have hne : a ≠ cid := by
            intro e
            subst e
            exact hcon (List.elem_iff.mpr ha)
          simp [hne]
        simp [ih closed pair hrec, hid]

/-! ## Claim C6 -/

/-- C6: fan-out is non-blocking per subscriber.  Each subscriber whose
mailbox has room receives the envelope appended to its mailbox; a
subscriber whose mailbox is full is left untouched and its id is handed
to the manager as an eviction request — and the manager's handling of
that request, when it completes, leaves no room's subscriber set
containing the client.  Delivery to each position depends only on that
subscriber's own mailbox, so one full mailbox never prevents delivery to
the others. -/
theorem claim_C6 (cap : Nat) (clients : List Session) (env : OutMsg)
    (i : Nat) (c : Session) (hc : clients[i]? = some c) :
    ((fanOut cap clients env).fst[i]? =
      some (if c.mailbox.length < cap then { c with mailbox := c.mailbox ++ [env] } else c)) ∧
    (¬ c.mailbox.length < cap →
      c.cid ∈ (fanOut cap clients env).snd ∧
      ∀ (hubs : List Hub) (res : List Hub × Bool),
        unregLoop c.cid false hubs = Except.ok res →
        ∀ hb ∈ res.fst, c.cid ∉ hb.clients) := by
  refine ⟨?_, fun hfull => ⟨?_, ?_⟩⟩
  · simp only [fanOut, List.getElem?_map, hc]
    rfl
  · have hmem : c ∈ clients := List.getElem?_mem hc
    simp only [fanOut, List.mem_map]
    refine ⟨c, List.mem_filter.mpr ⟨hmem, ?_⟩, rfl⟩
    simp [hfull]
  · intro hubs res hok hb hhb
    rw [unregLoop_ok_fst c.cid false hubs res hok] at hhb
    simp only [List.mem_map] at hhb
    obtain ⟨orig, _, horig⟩ := hhb
    rw [← horig]
    intro hmem
    have := (List.mem_filter.mp hmem).2
    simp at this

/-- C6 witness: with capacity 1, the first subscriber's mailbox is full
and becomes an eviction request while the second still receives. -/
theorem claim_C6_witness :
    (Session.mk 1 [OutMsg.error "old"]).cid ∈
      (fanOut 1 [⟨1, [OutMsg.error "old"]⟩, ⟨2, []⟩] (OutMsg.error "fresh")).snd :=
  ((claim_C6 1 [⟨1, [OutMsg.error "old"]⟩, ⟨2, []⟩] (OutMsg.error "fresh") 0
    ⟨1, [OutMsg.error "old"]⟩ rfl).2 (by decide)).1

/-! ## Claim C7 -/

/-- C7 counterexample: the claim says no code path outside the room
hub's own control loop mutates the subscriber set.  But the registry's
disconnect handling (`RoomManager.Run`, `Unregister` case) directly
deletes the client from the hub's subscriber map: here it turns room 1's
subscriber set from `[5, 7]` into `[7]`. -/
theorem claim_C7_counterexample :
    unregLoop 5 false [⟨1, [5, 7]⟩] = Except.ok ([⟨1, [7]⟩], true) ∧
      (Hub.mk 1 [7]) ≠ (Hub.mk 1 [5, 7]) :=
  ⟨rfl, by decide⟩

/-- C7 (amended): the subscriber set of a room hub is mutated by the
hub's own control loop (register adds the client, unregister removes it)
*and additionally* by the registry's disconnect handling, which — from
outside the hub's loop, under the hub's mutex — deletes the
disconnected client directly from every hub's subscriber map and touches
nothing else: on faultless completion the hubs are exactly the originals
with that client filtered out. -/
theorem claim_C7 (cid : Int) (hubs : List Hub) (res : List Hub × Bool)
    (h : unregLoop cid false hubs = Except.ok res) :
    res.fst = (hubs.map fun hb =>
      { hb with clients := hb.clients.filter fun x => x != cid }) ∧
    ∀ hb : Hub, cid ∈ (hubRegister hb cid).clients ∧
      cid ∉ (hubUnregister hb cid).clients := by
  refine ⟨unregLoop_ok_fst cid false hubs res h, fun hb => ⟨?_, ?_⟩⟩
  · unfold hubRegister
    by_cases hcon : hb.clients.contains cid
    · rw [if_pos hcon]
      exact List.elem_iff.mp hcon
    · rw [if_neg hcon]
      simp
  · unfold hubUnregister
    intro hmem
    have := (List.mem_filter.mp hmem).2
    simp at this

/-- C7 witness: disconnecting client 5 rewrites rooms 1 and 2 by
removing exactly client 5. -/
theorem claim_C7_witness :
    ((([⟨1, [7]⟩, ⟨2, [7]⟩], true) : List Hub × Bool).fst =
      ([Hub.mk 1 [5, 7], Hub.mk 2 [7]].map fun hb =>
        { hb with clients := hb.clients.filter fun x => x != 5 })) :=
  (claim_C7 5 [⟨1, [5, 7]⟩, ⟨2, [7]⟩] ([⟨1, [7]⟩, ⟨2, [7]⟩], true) rfl).1

/-! ## Claim C8 -/

/-- C8 failing input: a client subscribed to two rooms.  The disconnect
handling of `RoomManager.Run` runs `close(client.Send)` once per room
that contains the client, so the second iteration closes an already
closed channel — in Go a runtime panic (`close of closed channel`) that
crashes the handler instead of completing without fault. -/
theorem claim_C8 :
    unregLoop 5 false [⟨1, [5]⟩, ⟨2, [5]⟩] =
      Except.error "close of closed channel" :=
  rfl

/-! ## Claim C10 -/

/-- Entries whose id differs from the envelope's room pass through the
per-entry rewrite unchanged, so filtering them out of the rewritten list
gives the same result as filtering the original list. -/
theorem filter_ne_map_update (newMessage : CMsg) (inc : Bool) (roomId : Int)
    (rooms : List RoomEntry) :
    (rooms.map (updateRoomEntry newMessage inc roomId)).filter
        (fun r => r.id != roomId) =
      rooms.filter (fun r => r.id != roomId) := by
  induction rooms with
  | nil => rfl
  | cons a t ih =>
    have hid : (updateRoomEntry newMessage inc roomId a).id = a.id := by
      unfold updateRoomEntry
      split <;> rfl
    by_cases ha : (a.id == roomId) = true
    · have hae : a.id = roomId := eq_of_beq ha
      have h1 : ((updateRoomEntry newMessage inc roomId a).id != roomId) = false := by
        simp [bne, hid, hae]
      have h2 : (a.id != roomId) = false := by
        simp [bne, hae]
      simp [List.filter_cons, h1, h2, ih]
    · have hg : updateRoomEntry newMessage inc roomId a = a := by
        unfold updateRoomEntry
        rw [if_neg ha]
      have h1 : (a.id != roomId) = true := by
        simp [bne]
        exact fun e => ha (by simp [e])
      simp [List.filter_cons, hg, h1, ih]

/-- The rooms-list updater touches only the envelope's room: the
sublist of entries for every other room is unchanged, order included. -/
theorem updateRooms_filter_ne (uid : Int) (act : Option Int) (roomId : Int)
    (n : CMsg) (rooms : List RoomEntry) :
    (updateRooms uid act roomId n rooms).filter (fun r => r.id != roomId) =
      rooms.filter (fun r => r.id != roomId) := by
  unfold updateRooms
  have hmap := filter_ne_map_update n
    (!(act == some roomId) && !(n.senderId == uid)) roomId rooms
  cases hfind : (rooms.map (updateRoomEntry n
      (!(act == some roomId) && !(n.senderId == uid)) roomId)).find?
      (fun r => r.id == roomId) with
  | none =>
    simpa [hfind] using hmap
  | some rm =>
    have hrm := List.find?_some hfind
    have he : rm.id = roomId := eq_of_beq hrm
    have hdrop : (rm.id != roomId) = false := by
      simp [bne, he]
    simp [hfind, List.filter_cons, hdrop, filter_self_eq, hmap]

/-- C10: processing a `roomMessage` envelope for room `R` modifies only
room `R`'s entry of the per-room cache and room `R`'s entry of the rooms
list: every other room's cached message list is untouched, the entries
of all other rooms in the rooms list are unchanged (in their relative
order), the active-room id is unchanged, and the visible message view is
unchanged whenever `R` is not the active room. -/
theorem claim_C10 (uid : Int) (st : ClientState) (roomId : Int) (n : CMsg)
    (r' : Int) (hne : r' ≠ roomId) :
    (handleRoomMessage uid st roomId n).messagesCache r' = st.messagesCache r' ∧
    (st.activeRoomId ≠ some roomId →
      (handleRoomMessage uid st roomId n).messages = st.messages) ∧
    (handleRoomMessage uid st roomId n).rooms.filter (fun r => r.id != roomId) =
      st.rooms.filter (fun r => r.id != roomId) ∧
    (handleRoomMessage uid st roomId n).activeRoomId = st.activeRoomId := by
  have hbe : (r' == roomId) = false := by simp [hne]
  refine ⟨?_, ?_, ?_, rfl⟩
  · simp [handleRoomMessage, hbe, hne]
  · intro hact
    have hb : (st.activeRoomId == some roomId) = false := by simp [hact]
    simp [handleRoomMessage, hb]
  · exact updateRooms_filter_ne uid st.activeRoomId roomId n st.rooms

/-- C10 witness: an envelope for room 7 leaves room 3's cached list,
the active (room 3) view, the non-7 rooms sublist and the active-room id
untouched. -/
theorem claim_C10_witness :
    (handleRoomMessage 1 st0 7 canHello).messagesCache 3 = st0.messagesCache 3 :=
  (claim_C10 1 st0 7 canHello 3 (by decide)).1

end ChatHubGo
